import Mathlib

/-!
# upchecker: the handler adapter, its error renderers and the exact-path router

A shallow embedding of `handlers.go`.  Go strings are Lean strings; the
`http.ResponseWriter` a handler receives is the record `ResponseWriter`, which
behaves as the response of a `net/http` server does (a status line written
once, a body refused at a status that permits none) and names what can be
observed as `httptest.ResponseRecorder` does; a handler is a function on the
state `World`, which holds the writer, the process log and the variables
captured by handler closures.  A Go panic is the `Except.error` result.

Outside the embedding: the timestamp `log` puts before each entry, the
canonicalisation of header keys (every key used here is canonical already),
the `Content-Type` that is sniffed from the first bytes of a body begun without
one (no statement below reads a header after such a write), and the accounting
of a declared `Content-Length`.
-/

namespace Upchecker

/-! ## Constants of `handlers.go` -/

/-- The constant `htmlContent`. -/
def htmlContent : String := "text/html; charset=utf-8"

/-- The variable `err500TemplateNotLoading`. -/
def err500TemplateNotLoading : String :=
  "<!DOCTYPE html><html>\n<head><title>Error 500</title></head>\n<body><h1>Error 500</h1><p>Could not load error template</p></body></html>"

/-- The variable `err500TemplateNotExecuting`. -/
def err500TemplateNotExecuting : String :=
  "<!DOCTYPE html><html>\n<head><title>Error 500</title></head>\n<body><h1>Error 500</h1><p>Could not execute template.</p></body></html>"

/-! ## Strings and formatting -/

/-- Go's `strings.Contains s sub`: `sub` occurs in `s` as a contiguous run. -/
def Contains (s sub : String) : Prop := sub.data <:+: s.data

instance instDecidableContains (s sub : String) : Decidable (Contains s sub) :=
  inferInstanceAs (Decidable (sub.data <:+: s.data))

/-- The verb `%v` of `fmt` at a Go `int`: a minus sign for a negative number,
then the digits in base ten, most significant first. -/
def fmtInt : Int → String
  | Int.ofNat n => ⟨Nat.toDigits 10 n⟩
  | Int.negSucc n => ⟨'-' :: Nat.toDigits 10 (n + 1)⟩

/-- The number a run of decimal digits denotes (what `strconv.Atoi` reads back). -/
def decimalValue (cs : List Char) : Nat :=
  cs.foldl (fun acc c => 10 * acc + (c.toNat - 48)) 0

/-! ## Errors -/

/-- The type `HTTPError`. -/
structure HTTPError where
  Status : Int
  Message : String
deriving DecidableEq

/-- The method `HTTPError.Error`: `fmt.Sprintf("%v -- %v", e.Status, e.Message)`. -/
def HTTPError.Error (e : HTTPError) : String :=
  fmtInt e.Status ++ " -- " ++ e.Message

/-- A non-nil value of Go's interface `error`, as far as `MainHandler` tells
values apart: one whose dynamic type is `HTTPError`, or any other one, of which
only the text of `Error()` is ever used. -/
inductive GoError where
  | http (e : HTTPError)
  | other (msg : String)
deriving DecidableEq

/-- The method `Error()` of an `error` value. -/
def GoError.Error : GoError → String
  | GoError.http e => e.Error
  | GoError.other msg => msg

/-! ## The response writer -/

/-- The type `http.Header` restricted to single-valued keys. -/
abbrev Header := List (String × String)

/-- The method `Header.Set`. -/
def Header.Set (h : Header) (key value : String) : Header :=
  (key, value) :: h.filter (fun kv => kv.1 != key)

/-- The method `Header.Get`: the value stored under `key`, the empty string when there is none. -/
def Header.Get (h : Header) (key : String) : String :=
  match h.find? (fun kv => kv.1 == key) with
  | some kv => kv.2
  | none => ""

/-- The state of an `http.ResponseWriter`, with the field names of
`httptest.ResponseRecorder`: `HeaderMap` is the map `w.Header()` returns,
`snapHeader` the copy of it taken when the status line is written (the headers
that are sent), `Code` the status and `Body` the bytes the writer accepted. -/
structure ResponseWriter where
  HeaderMap : Header := []
  wroteHeader : Bool := false
  Code : Int := 200
  snapHeader : Header := []
  Body : String := ""
deriving DecidableEq

/-- The constructor `httptest.NewRecorder`: the writer of a response nothing was written to. -/
def NewRecorder : ResponseWriter := {}

/-- The call `w.Header().Set(key, value)`. -/
def ResponseWriter.SetHeader (w : ResponseWriter) (key value : String) : ResponseWriter :=
  { w with HeaderMap := w.HeaderMap.Set key value }

/-- The method `WriteHeader`: a call after the status line was written is
ignored; otherwise a code outside 100..999 panics (`checkWriteHeaderCode`), and
a valid one is recorded together with a copy of the header map. -/
def ResponseWriter.WriteHeader (w : ResponseWriter) (code : Int) : Except String ResponseWriter :=
  if w.wroteHeader then Except.ok w
  else if code < 100 ∨ 999 < code then Except.error ("invalid WriteHeader code " ++ fmtInt code)
  else Except.ok { w with wroteHeader := true, Code := code, snapHeader := w.HeaderMap }

/-- The function `bodyAllowedForStatus` of `net/http`: no body at 1xx, 204 and 304. -/
def bodyAllowedForStatus (status : Int) : Bool :=
  if 100 ≤ status ∧ status ≤ 199 then false
  else if status = 204 then false
  else if status = 304 then false
  else true

/-- The error `http.ErrBodyNotAllowed`. -/
def ErrBodyNotAllowed : GoError :=
  GoError.other "http: request method or response status code does not allow body"

/-- The method `Write`, with the error it returns: it writes the status line with code 200
when none was written yet; an empty write then succeeds; a write at a status that permits no
body is refused with `ErrBodyNotAllowed` and leaves the body alone; any other write is
appended to the body.  (`httptest.ResponseRecorder` refuses nothing; at a status that
permits a body the two agree.) -/
def ResponseWriter.Write (w : ResponseWriter) (buf : String) :
    ResponseWriter × Option GoError :=
  let w1 := if w.wroteHeader then w
    else { w with wroteHeader := true, Code := 200, snapHeader := w.HeaderMap }
  if buf = "" then (w1, none)
  else if bodyAllowedForStatus w1.Code then ({ w1 with Body := w1.Body ++ buf }, none)
  else (w1, some ErrBodyNotAllowed)

/-! ## Requests, the world and handlers -/

/-- The fields of `*http.Request` the handlers read: the method, `URL.Path`,
and what `decodeForm(new(Monitor), r)` yields on it, an error or the decoded
monitor as `%q` prints it. -/
structure Request where
  Method : String
  Path : String
  form : Except GoError String

/-- What a handler can change: the response writer, the lines given to `log`,
and the variables its closure captured (`env`). -/
structure World (σ : Type) where
  w : ResponseWriter
  log : List String
  env : σ

/-- The type `http.HandlerFunc`. -/
abbrev HandlerFunc (σ : Type) := World σ → Request → Except String (World σ)

/-- The type `Handler`: a handler that may return an error (`none` is `nil`). -/
abbrev Handler (σ : Type) := World σ → Request → Except String (Option GoError × World σ)

/-! ## Templates -/

/-- What one `Execute` call does on a writer that accepts every write: the `Write` calls it
makes, in order, and the error it then returns (`none` when it runs to the end). -/
structure ExecResult where
  writes : List String
  err : Option GoError

/-- A parsed template, given by what executing it with each datum does. -/
structure Template (δ : Type) where
  run : δ → ExecResult

/-- The writes of one execution, made in order up to the first one the writer refuses. -/
def writeAll : List String → ResponseWriter → ResponseWriter × Option GoError
  | [], w => (w, none)
  | s :: rest, w =>
    match w.Write s with
    | (w1, none) => writeAll rest w1
    | (w1, some err) => (w1, some err)

/-- The method `Execute(w, data)` of a template: it stops with the writer's error at the
first write that is refused, and otherwise ends as the template does on this datum. -/
def Template.Execute {δ : Type} (t : Template δ) (w : ResponseWriter) (data : δ) :
    ResponseWriter × Option GoError :=
  match writeAll (t.run data).writes w with
  | (w1, some err) => (w1, some err)
  | (w1, none) => (w1, (t.run data).err)

/-- What the package reads from outside `handlers.go`: the outcome of
`template.ParseFiles("templates/error.html")`, the variable `error500Tmpl`, the
outcome of parsing `templates/monitors/add.html` with the layout, and the
variable `SupportedTypes`. -/
structure Assets where
  errorHtml : Except GoError (Template HTTPError)
  error500Tmpl : Template String
  addHtml : Except GoError (Template (List String × String))
  SupportedTypes : List String

/-! ## The functions of `handlers.go` -/

/-- The function `handleServerError`. -/
def handleServerError {σ : Type} (A : Assets) (org : GoError) (W : World σ) :
    Except String (World σ) := do
  let log1 := W.log ++ ["An unexpected error 500 occured: " ++ org.Error]
  let w1 := W.w.SetHeader "Content-Type" htmlContent
  let w2 ← w1.WriteHeader 500
  match A.error500Tmpl.Execute w2 org.Error with
  | (w3, none) => pure { W with w := w3, log := log1 }
  | (w3, some err) =>
    pure { W with w := (w3.Write err500TemplateNotExecuting).1,
                  log := log1 ++ ["Error while executing template. " ++ err.Error] }

/-- The method `HTTPError.WriteToPage`. -/
def HTTPError.WriteToPage {σ : Type} (e : HTTPError) (A : Assets) (W : World σ) :
    Except String (World σ) :=
  match A.errorHtml with
  | Except.error err => handleServerError A err W
  | Except.ok t => do
    let w1 ← W.w.WriteHeader e.Status
    match t.Execute w1 e with
    | (w2, some err) => handleServerError A err { W with w := w2 }
    | (w2, none) => pure { W with w := w2 }

/-- The function `MainHandler`. -/
def MainHandler {σ : Type} (A : Assets) (h : Handler σ) : HandlerFunc σ := fun W r => do
  let (err, W1) ← h W r
  match err with
  | none => pure W1
  | some (GoError.http httpErr) => httpErr.WriteToPage A W1
  | some (GoError.other msg) => handleServerError A (GoError.other msg) W1

/-- The function `http.NotFound`, that is `http.Error(w, "404 page not found", 404)`: it sets
the two headers, writes the status line and prints the text with a newline.  (The headers
later releases of `net/http` also delete here are none this package sets.) -/
def NotFound {σ : Type} : HandlerFunc σ := fun W _ => do
  let w1 := W.w.SetHeader "Content-Type" "text/plain; charset=utf-8"
  let w2 := w1.SetHeader "X-Content-Type-Options" "nosniff"
  let w3 ← w2.WriteHeader 404
  pure { W with w := (w3.Write "404 page not found\n").1 }

/-- The function `IndexHandler`. -/
def IndexHandler {σ : Type} (pfx : String) (h : HandlerFunc σ) : HandlerFunc σ := fun W r =>
  if r.Path = pfx then h W r else NotFound W r

/-- The function `writeAddMonitorTemplate`. -/
def writeAddMonitorTemplate {σ : Type} (A : Assets) (W : World σ) (errMsg : String) :
    Option GoError × World σ :=
  match A.addHtml with
  | Except.error err => (some err, W)
  | Except.ok t =>
    match t.Execute W.w (A.SupportedTypes, errMsg) with
    | (w1, err) => (err, { W with w := w1 })

/-- The function `http.Redirect(w, r, "/", http.StatusFound)`. -/
def RedirectRoot {σ : Type} (W : World σ) (r : Request) : Except String (World σ) := do
  let hadCT := W.w.HeaderMap.any (fun kv => kv.1 == "Content-Type")
  let w1 := W.w.SetHeader "Location" "/"
  let w2 := if !hadCT && (r.Method == "GET" || r.Method == "HEAD")
    then w1.SetHeader "Content-Type" htmlContent else w1
  let w3 ← w2.WriteHeader 302
  pure { W with w := if !hadCT && r.Method == "GET"
    then (w3.Write "<a href=\"/\">Found</a>.\n\n").1 else w3 }

/-- The function `handleAddMonitorPost`. -/
def handleAddMonitorPost {σ : Type} (A : Assets) : Handler σ := fun W r =>
  match r.form with
  | Except.error _ =>
    pure (none, (writeAddMonitorTemplate A W "Form data invaild. Please check input").2)
  | Except.ok monitor => do
    let W1 := { W with log := W.log ++ ["Created (mock) a new monitor: " ++ monitor] }
    let W2 ← RedirectRoot W1 r
    pure (none, W2)

/-- The function `handleAddMonitor`. -/
def handleAddMonitor {σ : Type} (A : Assets) : Handler σ := fun W r =>
  if r.Method = "GET" then pure (writeAddMonitorTemplate A W "")
  else if r.Method = "POST" then handleAddMonitorPost A W r
  else pure (some (GoError.http ⟨405, "Method not allowed"⟩), W)

/-! ## Observing invocations -/

/-- The world `W` with the captured variables replaced by `e`. -/
def World.withEnv {σ τ : Type} (W : World σ) (e : τ) : World τ :=
  { w := W.w, log := W.log, env := e }

/-- The callback `h` wrapped in a closure that counts its calls in a captured
variable, as the closure of `TestIndexHandler` records its call in `handlerCalled`. -/
def counting {σ : Type} (h : HandlerFunc σ) : HandlerFunc (σ × Nat) := fun W r =>
  match h (W.withEnv W.env.1) r with
  | Except.error p => Except.error p
  | Except.ok W1 => Except.ok (W1.withEnv (W1.env, W.env.2 + 1))

/-- The fallible handler `h` wrapped in a closure that counts its calls. -/
def countingHandler {σ : Type} (h : Handler σ) : Handler (σ × Nat) := fun W r =>
  match h (W.withEnv W.env.1) r with
  | Except.error p => Except.error p
  | Except.ok (err, W1) => Except.ok (err, W1.withEnv (W1.env, W.env.2 + 1))

/-- The handler of `TestIndexHandler`: sets `handlerCalled` and writes `called`. -/
def testHandler : HandlerFunc Bool := fun W _ =>
  Except.ok { W with w := (W.w.Write "called").1, env := true }

/-- The world a test starts in: a new recorder, an empty log. -/
def World.start {σ : Type} (e : σ) : World σ := { w := NewRecorder, log := [], env := e }

/-- A request with the given method and path, whose form decodes to an empty monitor. -/
def newRequest (method path : String) : Request :=
  { Method := method, Path := path, form := Except.ok "" }

/-! ## Sample assets -/

/-- What `html/template` prints for one character of a value in HTML text: the seven
characters of its replacement table are replaced, every other one is kept. -/
def htmlEscapeChar (c : Char) : String :=
  if c = Char.ofNat 0 then "\uFFFD"
  else if c = Char.ofNat 34 then "&#34;"
  else if c = '&' then "&amp;"
  else if c = Char.ofNat 39 then "&#39;"
  else if c = '+' then "&#43;"
  else if c = '<' then "&lt;"
  else if c = '>' then "&gt;"
  else String.singleton c

/-- What `html/template` prints for a string value in HTML text: the string, escaped. -/
def htmlEscape (s : String) : String :=
  String.join (s.data.map htmlEscapeChar)

/-- Whether the character is one of the seven that `html/template` replaces. -/
def needsEscape (c : Char) : Bool :=
  c = Char.ofNat 0 || c = Char.ofNat 34 || c = '&' || c = Char.ofNat 39 || c = '+'
    || c = '<' || c = '>'

/-- Modelled from the spec: `templates/error.html` is not among the sources.  This page has
the three fragments `TestStatusError_WriteToPage` looks for, and prints the status and the
message of its datum as `html/template` (the package `handlers.go` parses it with) prints
values in HTML text: the number in base ten, the string escaped. -/
def errorHtmlPage : Template HTTPError :=
  ⟨fun e => ⟨["<!DOCTYPE html><html><head><title>Error ", fmtInt e.Status, " – ",
      htmlEscape e.Message, "</title></head><body><h1>Error ", fmtInt e.Status, "</h1>",
      htmlEscape e.Message, "<br><br></body></html>"], none⟩⟩

/-- Modelled from the spec: `error500.html` is not among the sources.  This page has the
three fragments `TestHandleServerError` looks for, and prints its datum escaped. -/
def error500Page : Template String :=
  ⟨fun msg => ⟨["<!DOCTYPE html><html><head><title>Error 500</title></head><body><h1>Error 500</h1>",
      "<p>While executing this request, an unexpected error occured. We are really sorry about that</p>",
      "<code>", htmlEscape msg, "</code></body></html>"], none⟩⟩

/-- A template whose execution makes the given writes and then fails with the given message. -/
def failingTemplate (δ : Type) (writes : List String) (msg : String) : Template δ :=
  ⟨fun _ => ⟨writes, some (GoError.other msg)⟩⟩

/-- The error a missing template file gives to `template.ParseFiles`. -/
def noSuchFile (name : String) : GoError :=
  GoError.other ("open " ++ name ++ ": no such file or directory")

/-- Assets in working order: both error pages load and execute. -/
def sampleAssets : Assets :=
  { errorHtml := Except.ok errorHtmlPage
    error500Tmpl := error500Page
    addHtml := Except.error (noSuchFile "templates/monitors/add.html")
    SupportedTypes := [] }

/-- Assets whose `error500.html` fails to execute before its first write. -/
def brokenAssets : Assets :=
  { sampleAssets with
    error500Tmpl := failingTemplate String [] "template: error500.html: can't evaluate field" }

/-- Assets whose `templates/error.html` loads and fails to execute after a first write. -/
def brokenPageAssets : Assets :=
  { sampleAssets with
    errorHtml := Except.ok (failingTemplate HTTPError ["Error "]
      "template: error.html: can't evaluate field") }

/-- Assets without the file `templates/error.html`. -/
def missingPageAssets : Assets :=
  { sampleAssets with errorHtml := Except.error (noSuchFile "templates/error.html") }

/-- A handler that writes the start of a page and then returns an error that is not an `HTTPError`. -/
def writeThenFail : Handler Unit := fun W _ =>
  Except.ok (some (GoError.other "boom"), { W with w := (W.w.Write "<html>").1 })

/-- A handler that answers `204 No Content` and then returns an error that is not an
`HTTPError`. -/
def noContentThenFail : Handler Unit := fun W _ =>
  match W.w.WriteHeader 204 with
  | Except.error p => Except.error p
  | Except.ok w1 => Except.ok (some (GoError.other "boom"), { W with w := w1 })

/-- A handler that returns an error that is not an `HTTPError` without writing. -/
def failAtOnce : Handler Unit := fun W _ => Except.ok (some (GoError.other "boom"), W)

theorem digitChar_value : ∀ k < 10, (Nat.digitChar k).toNat - 48 = k := by decide

theorem foldl_toDigitsCore (f : Nat) : ∀ (n : Nat) (acc : List Char), n < f →
    (Nat.toDigitsCore 10 f n acc).foldl (fun a c => 10 * a + (c.toNat - 48)) 0
      = acc.foldl (fun a c => 10 * a + (c.toNat - 48)) n := by
  induction f with
  | zero => intro n acc h; omega
  | succ f ih =>
    intro n acc h
    have hd : (Nat.digitChar (n % 10)).toNat - 48 = n % 10 :=
      digitChar_value (n % 10) (Nat.mod_lt _ (by decide))
    simp only [Nat.toDigitsCore]
    split
    · rename_i h0
      simp only [List.foldl_cons, hd]
      congr 1
      omega
    · rename_i h0
      rw [ih (n / 10) _ (by omega)]
      simp only [List.foldl_cons, hd]
      congr 1
      omega

theorem decimalValue_toDigits (n : Nat) : decimalValue (Nat.toDigits 10 n) = n := by
  unfold decimalValue Nat.toDigits
  rw [foldl_toDigitsCore (n + 1) n [] (by omega)]
  rfl

theorem join_cons (s : String) (l : List String) : String.join (s :: l) = s ++ String.join l := by
  apply String.ext
  simp [String.join_eq]

theorem join_nil : String.join [] = "" := rfl

theorem append_left_cancel (a b c : String) (h : a ++ b = a ++ c) : b = c := by
  apply String.ext
  have h2 := congrArg String.data h
  simpa using h2

theorem contains_middle (a b c m : String) (h : Contains b m) : Contains (a ++ b ++ c) m := by
  obtain ⟨u, v, huv⟩ := h
  refine ⟨a.data ++ u, v ++ c.data, ?_⟩
  simp only [String.data_append, ← huv, List.append_assoc]

theorem contains_join (m : String) : ∀ l : List String, m ∈ l → Contains (String.join l) m := by
  intro l
  induction l with
  | nil => intro h; cases h
  | cons s rest ih =>
    intro h
    rw [join_cons]
    rcases List.mem_cons.mp h with h1 | h1
    · subst h1
      have := contains_middle "" m (String.join rest) m ⟨[], [], by simp⟩
      simpa using this
    · have := contains_middle s (String.join rest) "" m (ih h1)
      simpa using this

theorem append_ne_empty (a b : String) (h : b ≠ "") : a ++ b ≠ "" := by
  intro hab
  apply h
  apply String.ext
  have h2 := congrArg String.data hab
  simp only [String.data_append] at h2
  exact (List.append_eq_nil.mp h2).2

theorem append_ne_empty_left (a b : String) (h : a ≠ "") : a ++ b ≠ "" := by
  intro hab
  apply h
  apply String.ext
  have h2 := congrArg String.data hab
  simp only [String.data_append] at h2
  exact (List.append_eq_nil.mp h2).1

theorem literal_ne_empty : err500TemplateNotExecuting ≠ "" := by decide

theorem Get_Set (h : Header) (key value : String) : (h.Set key value).Get key = value := by
  simp [Header.Set, Header.Get, List.find?]

/-! ## The writer -/

theorem Write_allowed (w : ResponseWriter) (buf : String) (hw : w.wroteHeader = true)
    (ha : bodyAllowedForStatus w.Code = true) :
    w.Write buf = ({ w with Body := w.Body ++ buf }, none) := by
  obtain ⟨hm, wrote, code, snap, body⟩ := w
  dsimp only at hw ha
  subst hw
  by_cases hb : buf = ""
  · subst hb
    simp [ResponseWriter.Write]
  · simp [ResponseWriter.Write, hb, ha]

theorem Write_refused (w : ResponseWriter) (buf : String) (hw : w.wroteHeader = true)
    (ha : bodyAllowedForStatus w.Code = false) :
    w.Write buf = (w, if buf = "" then none else some ErrBodyNotAllowed) := by
  obtain ⟨hm, wrote, code, snap, body⟩ := w
  dsimp only at hw ha
  subst hw
  by_cases hb : buf = ""
  · simp [ResponseWriter.Write, hb]
  · simp [ResponseWriter.Write, hb, ha]

theorem writeAll_allowed (l : List String) : ∀ w : ResponseWriter, w.wroteHeader = true →
    bodyAllowedForStatus w.Code = true →
    writeAll l w = ({ w with Body := w.Body ++ String.join l }, none) := by
  induction l with
  | nil => intro w _ _; simp [writeAll, join_nil]
  | cons s rest ih =>
    intro w hw ha
    simp only [writeAll, Write_allowed w s hw ha]
    rw [ih { w with Body := w.Body ++ s } hw ha, join_cons]
    simp [String.append_assoc]

theorem writeAll_refused (l : List String) : ∀ w : ResponseWriter, w.wroteHeader = true →
    bodyAllowedForStatus w.Code = false →
    writeAll l w = (w, if String.join l = "" then none else some ErrBodyNotAllowed) := by
  induction l with
  | nil => intro w _ _; simp [writeAll, join_nil]
  | cons s rest ih =>
    intro w hw ha
    simp only [writeAll, Write_refused w s hw ha]
    by_cases hs : s = ""
    · subst hs
      simp only [if_true]
      rw [ih w hw ha, join_cons]
      simp
    · simp only [if_neg hs]
      rw [if_neg]
      rw [join_cons]
      exact append_ne_empty_left _ _ hs

theorem Execute_allowed {δ : Type} (t : Template δ) (w : ResponseWriter) (data : δ)
    (hw : w.wroteHeader = true) (ha : bodyAllowedForStatus w.Code = true) :
    t.Execute w data
      = ({ w with Body := w.Body ++ String.join (t.run data).writes }, (t.run data).err) := by
  unfold Template.Execute
  rw [writeAll_allowed _ w hw ha]

theorem Execute_refused {δ : Type} (t : Template δ) (w : ResponseWriter) (data : δ)
    (hw : w.wroteHeader = true) (ha : bodyAllowedForStatus w.Code = false) :
    t.Execute w data
      = (w, if String.join (t.run data).writes = "" then (t.run data).err
            else some ErrBodyNotAllowed) := by
  unfold Template.Execute
  rw [writeAll_refused _ w hw ha]
  by_cases hj : String.join (t.run data).writes = ""
  · simp only [hj, if_true]
  · simp only [hj, if_false]

theorem WriteHeader_wrote (w w1 : ResponseWriter) (code : Int)
    (h : w.WriteHeader code = Except.ok w1) : w1.wroteHeader = true := by
  unfold ResponseWriter.WriteHeader at h
  split at h
  · cases h; assumption
  · split at h
    · cases h
    · cases h; rfl

theorem WriteHeader_fresh (w : ResponseWriter) (code : Int) (hw : w.wroteHeader = false)
    (hv : 100 ≤ code ∧ code ≤ 999) :
    w.WriteHeader code
      = Except.ok { w with wroteHeader := true, Code := code, snapHeader := w.HeaderMap } := by
  unfold ResponseWriter.WriteHeader
  rw [if_neg (by simp [hw]), if_neg (by omega)]

/-! ## The renderers -/

theorem handleServerError_unfold {σ : Type} (A : Assets) (org : GoError) (W : World σ)
    (w2 : ResponseWriter)
    (h2 : (W.w.SetHeader "Content-Type" htmlContent).WriteHeader 500 = Except.ok w2) :
    handleServerError A org W =
      match A.error500Tmpl.Execute w2 org.Error with
      | (w3, none) =>
        Except.ok { W with w := w3,
                           log := W.log ++ ["An unexpected error 500 occured: " ++ org.Error] }
      | (w3, some err) =>
        Except.ok { W with w := (w3.Write err500TemplateNotExecuting).1,
                           log := W.log ++ ["An unexpected error 500 occured: " ++ org.Error]
                             ++ ["Error while executing template. " ++ err.Error] } := by
  simp only [handleServerError, h2, bind, Except.bind]
  rfl

theorem WriteHeader_500 (w : ResponseWriter) :
    ∃ w2, (w.SetHeader "Content-Type" htmlContent).WriteHeader 500 = Except.ok w2
      ∧ w2.wroteHeader = true
      ∧ w2.Code = (if w.wroteHeader then w.Code else 500)
      ∧ w2.Body = w.Body
      ∧ w2.HeaderMap = w.HeaderMap.Set "Content-Type" htmlContent
      ∧ w2.snapHeader = (if w.wroteHeader then w.snapHeader
          else w.HeaderMap.Set "Content-Type" htmlContent) := by
  obtain ⟨hm, wrote, code, snap, body⟩ := w
  cases wrote with
  | true => exact ⟨_, rfl, rfl, rfl, rfl, rfl, rfl⟩
  | false => exact ⟨_, rfl, rfl, rfl, rfl, rfl, rfl⟩

/-- What `handleServerError` leaves behind, whatever the writer and the template do: it
returns, the status line is written, the headers are as listed, and body and log are as
listed for a status that permits a body and for one that permits none. -/
theorem handleServerError_spec {σ : Type} (A : Assets) (org : GoError) (W : World σ) :
    ∃ W1 : World σ, handleServerError A org W = Except.ok W1
      ∧ W1.env = W.env
      ∧ W1.w.wroteHeader = true
      ∧ W1.w.Code = (if W.w.wroteHeader then W.w.Code else 500)
      ∧ W1.w.HeaderMap = W.w.HeaderMap.Set "Content-Type" htmlContent
      ∧ W1.w.snapHeader = (if W.w.wroteHeader then W.w.snapHeader
          else W.w.HeaderMap.Set "Content-Type" htmlContent)
      ∧ (bodyAllowedForStatus W1.w.Code = true →
          W1.w.Body = W.w.Body ++ String.join (A.error500Tmpl.run org.Error).writes
              ++ (match (A.error500Tmpl.run org.Error).err with
                  | none => ""
                  | some _ => err500TemplateNotExecuting)
          ∧ W1.log = W.log ++ ("An unexpected error 500 occured: " ++ org.Error) ::
              (match (A.error500Tmpl.run org.Error).err with
               | none => []
               | some err => ["Error while executing template. " ++ err.Error]))
      ∧ (bodyAllowedForStatus W1.w.Code = false →
          W1.w.Body = W.w.Body
          ∧ W1.log = W.log ++ ("An unexpected error 500 occured: " ++ org.Error) ::
              (match (if String.join (A.error500Tmpl.run org.Error).writes = ""
                      then (A.error500Tmpl.run org.Error).err
                      else some ErrBodyNotAllowed) with
               | none => []
               | some err => ["Error while executing template. " ++ err.Error])) := by
  obtain ⟨w2, h2, k1, k2, k3, k4, k5⟩ := WriteHeader_500 W.w
  rw [handleServerError_unfold A org W w2 h2]
  cases ha : bodyAllowedForStatus w2.Code with
  | true =>
    rw [Execute_allowed _ w2 _ k1 ha]
    cases herr : (A.error500Tmpl.run org.Error).err with
    | none =>
      refine ⟨_, rfl, rfl, k1, k2, k4, k5, ?_, ?_⟩
      · intro _
        exact ⟨by simp [k3], by simp⟩
      · intro hn
        exact absurd (ha.symm.trans hn) (by decide)
    | some err =>
      have hw3 : (ResponseWriter.Write
          { w2 with Body := w2.Body ++ String.join (A.error500Tmpl.run org.Error).writes }
          err500TemplateNotExecuting)
          = ({ w2 with Body := w2.Body ++ String.join (A.error500Tmpl.run org.Error).writes
                ++ err500TemplateNotExecuting }, none) :=
        Write_allowed _ _ k1 ha
      dsimp only
      rw [hw3]
      refine ⟨_, rfl, rfl, k1, k2, k4, k5, ?_, ?_⟩
      · intro _
        exact ⟨by simp [k3], by simp⟩
      · intro hn
        exact absurd (ha.symm.trans hn) (by decide)
  | false =>
    rw [Execute_refused _ w2 _ k1 ha]
    cases hx : (if String.join (A.error500Tmpl.run org.Error).writes = ""
        then (A.error500Tmpl.run org.Error).err else some ErrBodyNotAllowed) with
    | none =>
      refine ⟨_, rfl, rfl, k1, k2, k4, k5, ?_, ?_⟩
      · intro hn
        exact absurd (ha.symm.trans hn) (by decide)
      · intro _
        exact ⟨k3, by simp⟩
    | some err =>
      dsimp only
      rw [Write_refused w2 _ k1 ha]
      refine ⟨_, rfl, rfl, k1, k2, k4, k5, ?_, ?_⟩
      · intro hn
        exact absurd (ha.symm.trans hn) (by decide)
      · intro _
        exact ⟨k3, by simp⟩

theorem WriteToPage_load_failed {σ : Type} (e : HTTPError) (A : Assets) (W : World σ)
    (err : GoError) (h : A.errorHtml = Except.error err) :
    e.WriteToPage A W = handleServerError A err W := by
  simp [HTTPError.WriteToPage, h]

theorem WriteToPage_loaded {σ : Type} (e : HTTPError) (A : Assets) (W : World σ)
    (t : Template HTTPError) (w1 : ResponseWriter) (h : A.errorHtml = Except.ok t)
    (hw : W.w.WriteHeader e.Status = Except.ok w1) :
    e.WriteToPage A W =
      match t.Execute w1 e with
      | (w2, some err) => handleServerError A err { W with w := w2 }
      | (w2, none) => Except.ok { W with w := w2 } := by
  simp only [HTTPError.WriteToPage, h, hw, bind, Except.bind]
  rfl

theorem Execute_wrote {δ : Type} (t : Template δ) (w : ResponseWriter) (data : δ)
    (hw : w.wroteHeader = true) : (t.Execute w data).1.wroteHeader = true := by
  cases ha : bodyAllowedForStatus w.Code with
  | true => rw [Execute_allowed t w data hw ha]; exact hw
  | false => rw [Execute_refused t w data hw ha]; exact hw

/-- A call of `WriteToPage` that returns has written the status line and left the captured variables alone. -/
theorem WriteToPage_returns {σ : Type} (e : HTTPError) (A : Assets) (W W1 : World σ)
    (h : e.WriteToPage A W = Except.ok W1) : W1.env = W.env ∧ W1.w.wroteHeader = true := by
  cases hl : A.errorHtml with
  | error err =>
    rw [WriteToPage_load_failed e A W err hl] at h
    obtain ⟨W2, h2, henv, hwrote, _⟩ := handleServerError_spec A err W
    rw [h2] at h
    cases h
    exact ⟨henv, hwrote⟩
  | ok t =>
    cases hw : W.w.WriteHeader e.Status with
    | error p => simp [HTTPError.WriteToPage, hl, hw, bind, Except.bind] at h
    | ok w1 =>
      rw [WriteToPage_loaded e A W t w1 hl hw] at h
      have hw1 := WriteHeader_wrote _ _ _ hw
      have hx := Execute_wrote t w1 e hw1
      cases hex : t.Execute w1 e with
      | mk w2 r =>
        rw [hex] at h hx
        cases r with
        | none =>
          cases h
          exact ⟨rfl, hx⟩
        | some err =>
          obtain ⟨W2, h2, henv, hwrote, _⟩ := handleServerError_spec A err { W with w := w2 }
          dsimp only at h
          rw [h2] at h
          cases h
          exact ⟨henv, hwrote⟩

theorem MainHandler_eq {σ : Type} (A : Assets) (h : Handler σ) (W : World σ) (r : Request) :
    MainHandler A h W r =
      match h W r with
      | Except.error p => Except.error p
      | Except.ok (none, W1) => Except.ok W1
      | Except.ok (some (GoError.http e), W1) => e.WriteToPage A W1
      | Except.ok (some (GoError.other msg), W1) => handleServerError A (GoError.other msg) W1 := by
  unfold MainHandler
  cases hh : h W r with
  | error p => rfl
  | ok res =>
    obtain ⟨err, W1⟩ := res
    cases err with
    | none => rfl
    | some ge => cases ge <;> rfl

theorem NotFound_spec {σ : Type} (W : World σ) (r : Request) :
    ∃ W1 : World σ, NotFound W r = Except.ok W1 ∧ W1.env = W.env ∧ W1.log = W.log
      ∧ (W.w.wroteHeader = false → W1.w.Code = 404
          ∧ W1.w.Body = W.w.Body ++ "404 page not found\n"
          ∧ W1.w.snapHeader.Get "Content-Type" = "text/plain; charset=utf-8") := by
  obtain ⟨w, lg, env⟩ := W
  obtain ⟨hm, wrote, code, snap, body⟩ := w
  cases wrote with
  | true =>
    refine ⟨_, rfl, rfl, rfl, ?_⟩
    intro h
    cases h
  | false =>
    refine ⟨_, rfl, rfl, rfl, ?_⟩
    intro _
    refine ⟨rfl, rfl, ?_⟩
    simp [ResponseWriter.Write, ResponseWriter.SetHeader, Header.Set, Header.Get, List.find?]

theorem counting_IndexHandler {σ : Type} (pfx : String) (h : HandlerFunc σ) (W : World σ)
    (r : Request) (n : Nat) (W1 : World (σ × Nat))
    (hr : IndexHandler pfx (counting h) (W.withEnv (W.env, n)) r = Except.ok W1) :
    W1.env.2 = if r.Path = pfx then n + 1 else n := by
  unfold IndexHandler at hr
  by_cases hp : r.Path = pfx
  · rw [if_pos hp] at hr
    rw [if_pos hp]
    unfold counting at hr
    split at hr
    · cases hr
    · cases hr; rfl
  · rw [if_neg hp] at hr
    rw [if_neg hp]
    obtain ⟨W2, h2, henv, _⟩ := NotFound_spec (W.withEnv (W.env, n)) r
    rw [h2] at hr
    cases hr
    rw [henv]
    rfl

/-- What `WriteToPage` leaves behind when the page loads and executes, on a response not yet
begun, at a status that permits a body. -/
theorem WriteToPage_success {σ : Type} (e : HTTPError) (A : Assets) (W : World σ)
    (t : Template HTTPError) (hl : A.errorHtml = Except.ok t) (hx : (t.run e).err = none)
    (hw : W.w.wroteHeader = false) (hv : 100 ≤ e.Status ∧ e.Status ≤ 999)
    (hb : bodyAllowedForStatus e.Status = true) :
    ∃ W1 : World σ, e.WriteToPage A W = Except.ok W1
      ∧ W1.w.Code = e.Status
      ∧ W1.w.Body = W.w.Body ++ String.join (t.run e).writes
      ∧ W1.w.HeaderMap = W.w.HeaderMap
      ∧ W1.w.snapHeader = W.w.HeaderMap
      ∧ W1.log = W.log ∧ W1.env = W.env := by
  have h1 := WriteToPage_loaded e A W t _ hl (WriteHeader_fresh W.w e.Status hw hv)
  rw [Execute_allowed t _ e rfl hb, hx] at h1
  exact ⟨_, h1, rfl, rfl, rfl, rfl, rfl, rfl⟩

theorem handleAddMonitor_default {σ : Type} (A : Assets) (W : World σ) (r : Request)
    (hget : r.Method ≠ "GET") (hpost : r.Method ≠ "POST") :
    handleAddMonitor A W r
      = Except.ok (some (GoError.http ⟨405, "Method not allowed"⟩), W) := by
  unfold handleAddMonitor
  rw [if_neg hget, if_neg hpost]
  rfl

theorem htmlEscapeChar_plain (c : Char) (h : needsEscape c = false) :
    htmlEscapeChar c = String.singleton c := by
  simp only [needsEscape, Bool.or_eq_false_iff, decide_eq_false_iff_not] at h
  obtain ⟨⟨⟨⟨⟨⟨h0, h1⟩, h2⟩, h3⟩, h4⟩, h5⟩, h6⟩ := h
  simp only [htmlEscapeChar, if_neg h0, if_neg h1, if_neg h2, if_neg h3, if_neg h4, if_neg h5,
    if_neg h6]

theorem join_escape_plain : ∀ cs : List Char, (∀ c ∈ cs, needsEscape c = false) →
    (String.join (cs.map htmlEscapeChar)).data = cs := by
  intro cs
  induction cs with
  | nil => intro _; rfl
  | cons c rest ih =>
    intro h
    rw [List.map_cons, join_cons, String.data_append,
      htmlEscapeChar_plain c (h c (List.mem_cons_self _ _)),
      ih (fun x hx => h x (List.mem_cons_of_mem _ hx))]
    rfl

/-- A string without any of the seven characters is printed as it is. -/
theorem htmlEscape_plain (s : String) (h : ∀ c ∈ s.data, needsEscape c = false) :
    htmlEscape s = s :=
  String.ext (join_escape_plain s.data h)

/-! ## The claims -/

/-- C9: the `Error()` string of the structured error with status `s` and message `m` is the
decimal rendering of `s` (for `s ≥ 0` digits that denote `s`, for `s < 0` a minus sign before
the rendering of `-s`), then ` -- `, then `m` unchanged; `{123, "foo bar"}` gives
`123 -- foo bar`; and two different messages under one status give two different strings. -/
theorem HTTPError_Error_format (s : Int) (m : String) :
    HTTPError.Error ⟨s, m⟩ = fmtInt s ++ " -- " ++ m
    ∧ (0 ≤ s → decimalValue (fmtInt s).data = s.toNat)
    ∧ (s < 0 → fmtInt s = "-" ++ fmtInt (-s))
    ∧ HTTPError.Error ⟨123, "foo bar"⟩ = "123 -- foo bar"
    ∧ (∀ m2 : String, m2 ≠ m → HTTPError.Error ⟨s, m2⟩ ≠ HTTPError.Error ⟨s, m⟩) := by
  refine ⟨rfl, ?_, ?_, by decide, ?_⟩
  · intro hs
    cases s with
    | ofNat n => exact decimalValue_toDigits n
    | negSucc n => exact absurd hs (by simp [Int.negSucc_lt_zero])
  · intro hs
    cases s with
    | ofNat n => exact absurd hs (by simp)
    | negSucc n => rfl
  · intro m2 hne heq
    apply hne
    unfold HTTPError.Error at heq
    exact append_left_cancel _ _ _ heq

/-- C9, at the status 123 and the messages of the test. -/
theorem HTTPError_Error_format_witness :
    HTTPError.Error ⟨123, "foo bar"⟩ = "123" ++ " -- " ++ "foo bar"
    ∧ decimalValue (fmtInt 123).data = 123
    ∧ HTTPError.Error ⟨123, "foo baz"⟩ ≠ HTTPError.Error ⟨123, "foo bar"⟩ :=
  ⟨(HTTPError_Error_format 123 "foo bar").1,
   (HTTPError_Error_format 123 "foo bar").2.1 (by decide),
   (HTTPError_Error_format 123 "foo bar").2.2.2.2 "foo baz" (by decide)⟩

/-- C1: the callback `IndexHandler pfx h` calls `h` if and only if the request path equals
`pfx`.  On an equal path its effect is that of one call of `h` on the same writer and request
(a counter in the closure of `h` goes up by one); on any other path the outcome does not depend
on `h`, the counter and the captured variables are untouched, and the status of the response
(not yet begun when the callback is entered) is 404. -/
theorem IndexHandler_exact_match {σ : Type} (pfx : String) (h : HandlerFunc σ) (W : World σ)
    (r : Request) (n : Nat) :
    (r.Path = pfx →
        IndexHandler pfx h W r = h W r
        ∧ ∀ W1, IndexHandler pfx (counting h) (W.withEnv (W.env, n)) r = Except.ok W1 →
            W1.env.2 = n + 1)
    ∧ (r.Path ≠ pfx →
        (∃ W1, IndexHandler pfx h W r = Except.ok W1 ∧ W1.env = W.env ∧ W1.log = W.log
            ∧ (W.w.wroteHeader = false → W1.w.Code = 404))
        ∧ (∀ h2 : HandlerFunc σ, IndexHandler pfx h2 W r = IndexHandler pfx h W r)
        ∧ ∃ W1, IndexHandler pfx (counting h) (W.withEnv (W.env, n)) r = Except.ok W1
            ∧ W1.env.2 = n) := by
  constructor
  · intro heq
    refine ⟨by simp [IndexHandler, heq], ?_⟩
    intro W1 hr
    rw [counting_IndexHandler pfx h W r n W1 hr, if_pos heq]
  · intro hne
    obtain ⟨W2, h2, henv, hlog, hcode⟩ := NotFound_spec W r
    refine ⟨⟨W2, by simp [IndexHandler, hne, h2], henv, hlog, fun hf => (hcode hf).1⟩, ?_, ?_⟩
    · intro h2
      simp [IndexHandler, hne]
    · obtain ⟨W3, h3, _⟩ := NotFound_spec (W.withEnv (W.env, n)) r
      have hr : IndexHandler pfx (counting h) (W.withEnv (W.env, n)) r = Except.ok W3 := by
        simp [IndexHandler, hne, h3]
      refine ⟨W3, hr, ?_⟩
      rw [counting_IndexHandler pfx h W r n W3 hr, if_neg hne]

/-- C1, at the rows `/foo/bar/` against `/foo/bar/` and against `/foo/bar/home` of the test. -/
theorem IndexHandler_exact_match_witness :
    (IndexHandler "/foo/bar/" testHandler (World.start false) (newRequest "GET" "/foo/bar/")
        = testHandler (World.start false) (newRequest "GET" "/foo/bar/"))
    ∧ (∃ W1, IndexHandler "/foo/bar/" testHandler (World.start false)
          (newRequest "GET" "/foo/bar/home") = Except.ok W1
        ∧ W1.env = (World.start false).env ∧ W1.log = (World.start false).log
        ∧ ((World.start false).w.wroteHeader = false → W1.w.Code = 404)) :=
  ⟨((IndexHandler_exact_match "/foo/bar/" testHandler (World.start false)
      (newRequest "GET" "/foo/bar/") 0).1 (by decide)).1,
   ((IndexHandler_exact_match "/foo/bar/" testHandler (World.start false)
      (newRequest "GET" "/foo/bar/home") 0).2 (by decide)).1⟩

/-- C4: `MainHandler h` dispatches on the result of `h`.  It calls `h` once (a counter in the
closure of `h` ends one higher); a panic of `h` passes through; when `h` returns no error the
outcome is what `h` left; when `h` returns an `HTTPError` it is the effect of that error's
`WriteToPage` on what `h` left; for any other error it is the effect of `handleServerError`
on what `h` left; and after a non-nil error a renderer has run: the status line is written. -/
theorem MainHandler_dispatch {σ : Type} (A : Assets) (h : Handler σ) (W : World σ)
    (r : Request) (n : Nat) :
    (∀ p, h W r = Except.error p → MainHandler A h W r = Except.error p)
    ∧ (∀ W1, h W r = Except.ok (none, W1) → MainHandler A h W r = Except.ok W1)
    ∧ (∀ e W1, h W r = Except.ok (some (GoError.http e), W1) →
        MainHandler A h W r = e.WriteToPage A W1)
    ∧ (∀ msg W1, h W r = Except.ok (some (GoError.other msg), W1) →
        MainHandler A h W r = handleServerError A (GoError.other msg) W1)
    ∧ (∀ W2, MainHandler A (countingHandler h) (W.withEnv (W.env, n)) r = Except.ok W2 →
        W2.env.2 = n + 1)
    ∧ (∀ err W1 W2, h W r = Except.ok (some err, W1) → MainHandler A h W r = Except.ok W2 →
        W2.w.wroteHeader = true ∧ W2.env = W1.env) := by
  have hrun : ∀ (τ : Type) (g : Handler τ) (V V1 V2 : World τ) (err : GoError),
      g V r = Except.ok (some err, V1) → MainHandler A g V r = Except.ok V2 →
      V2.w.wroteHeader = true ∧ V2.env = V1.env := by
    intro τ g V V1 V2 err hg hm
    rw [MainHandler_eq, hg] at hm
    cases err with
    | http e =>
      obtain ⟨h1, h2⟩ := WriteToPage_returns e A V1 V2 hm
      exact ⟨h2, h1⟩
    | other msg =>
      obtain ⟨V3, h3, henv, hwrote, _⟩ := handleServerError_spec A (GoError.other msg) V1
      dsimp only at hm
      rw [h3] at hm
      cases hm
      exact ⟨hwrote, henv⟩
  refine ⟨?_, ?_, ?_, ?_, ?_, ?_⟩
  · intro p hp
    rw [MainHandler_eq, hp]
  · intro W1 hp
    rw [MainHandler_eq, hp]
  · intro e W1 hp
    rw [MainHandler_eq, hp]
  · intro msg W1 hp
    rw [MainHandler_eq, hp]
  · intro W2 hm
    cases hc : countingHandler h (W.withEnv (W.env, n)) r with
    | error p =>
      rw [MainHandler_eq, hc] at hm
      cases hm
    | ok res =>
      obtain ⟨err, V1⟩ := res
      have hV1 : V1.env.2 = n + 1 := by
        unfold countingHandler at hc
        split at hc
        · cases hc
        · cases hc; rfl
      cases err with
      | none =>
        rw [MainHandler_eq, hc] at hm
        cases hm
        exact hV1
      | some ge =>
        rw [(hrun _ _ _ _ _ ge hc hm).2]
        exact hV1
  · intro err W1 W2 hh hm
    exact hrun σ h W W1 W2 err hh hm

/-- C4, at `handleAddMonitor` under a `PUT` request, which returns the structured error 405. -/
theorem MainHandler_dispatch_witness :
    MainHandler sampleAssets (handleAddMonitor sampleAssets) (World.start ())
        (newRequest "PUT" "/monitors/add")
      = HTTPError.WriteToPage ⟨405, "Method not allowed"⟩ sampleAssets (World.start ()) :=
  (MainHandler_dispatch sampleAssets (handleAddMonitor sampleAssets) (World.start ())
    (newRequest "PUT" "/monitors/add") 0).2.2.1 ⟨405, "Method not allowed"⟩ (World.start ())
    (handleAddMonitor_default sampleAssets (World.start ()) (newRequest "PUT" "/monitors/add")
      (by decide) (by decide))

/-- C10: for a request whose method is neither `GET` nor `POST` (compared as strings, so
`get`, `PUT` and the empty method count), `handleAddMonitor` writes nothing and returns
`HTTPError{405, "Method not allowed"}`; `MainHandler` then runs that error's `WriteToPage`,
and when the error page loads and executes, on a response not yet begun, the status is 405,
the body is the page, and nothing is logged (the 500 fallback, which always logs, did not run). -/
theorem handleAddMonitor_method_not_allowed {σ : Type} (A : Assets) (W : World σ) (r : Request)
    (hget : r.Method ≠ "GET") (hpost : r.Method ≠ "POST") :
    handleAddMonitor A W r = Except.ok (some (GoError.http ⟨405, "Method not allowed"⟩), W)
    ∧ MainHandler A (handleAddMonitor A) W r
        = HTTPError.WriteToPage ⟨405, "Method not allowed"⟩ A W
    ∧ (∀ t : Template HTTPError, A.errorHtml = Except.ok t →
        (t.run ⟨405, "Method not allowed"⟩).err = none → W.w.wroteHeader = false →
        ∃ W1, MainHandler A (handleAddMonitor A) W r = Except.ok W1
          ∧ W1.w.Code = 405 ∧ W1.w.Code ≠ 500
          ∧ W1.w.Body = W.w.Body ++ String.join (t.run ⟨405, "Method not allowed"⟩).writes
          ∧ W1.log = W.log) := by
  have h1 := handleAddMonitor_default A W r hget hpost
  have h2 : MainHandler A (handleAddMonitor A) W r
      = HTTPError.WriteToPage ⟨405, "Method not allowed"⟩ A W := by
    rw [MainHandler_eq, h1]
  refine ⟨h1, h2, ?_⟩
  intro t hl hx hw
  obtain ⟨W1, g1, g2, g3, _, _, g6, _⟩ :=
    WriteToPage_success ⟨405, "Method not allowed"⟩ A W t hl hx hw (by decide) (by decide)
  refine ⟨W1, by rw [h2, g1], g2, ?_, g3, g6⟩
  rw [g2]
  decide

/-- C10, at the methods `get`, `PUT` and the empty one, with the sample error page. -/
theorem handleAddMonitor_method_not_allowed_witness :
    (handleAddMonitor sampleAssets (World.start ()) (newRequest "get" "/monitors/add")
        = Except.ok (some (GoError.http ⟨405, "Method not allowed"⟩), World.start ()))
    ∧ (handleAddMonitor sampleAssets (World.start ()) (newRequest "" "/monitors/add")
        = Except.ok (some (GoError.http ⟨405, "Method not allowed"⟩), World.start ()))
    ∧ (∃ W1, MainHandler sampleAssets (handleAddMonitor sampleAssets) (World.start ())
          (newRequest "PUT" "/monitors/add") = Except.ok W1
        ∧ W1.w.Code = 405 ∧ W1.w.Code ≠ 500
        ∧ W1.w.Body = (World.start ()).w.Body
            ++ String.join (errorHtmlPage.run ⟨405, "Method not allowed"⟩).writes
        ∧ W1.log = (World.start ()).log) :=
  ⟨(handleAddMonitor_method_not_allowed sampleAssets (World.start ())
      (newRequest "get" "/monitors/add") (by decide) (by decide)).1,
   (handleAddMonitor_method_not_allowed sampleAssets (World.start ())
      (newRequest "" "/monitors/add") (by decide) (by decide)).1,
   (handleAddMonitor_method_not_allowed sampleAssets (World.start ())
      (newRequest "PUT" "/monitors/add") (by decide) (by decide)).2.2 errorHtmlPage rfl rfl rfl⟩

/-- C2 as stated fails three times.  A handler that wrote the start of a page before
returning its error leaves the status at 200, not 500; when `error500.html` fails to execute,
the body is the fixed literal, which does not contain the text of the error; and a handler
that answered `204 No Content` before returning its error leaves the status at 204 and the
body empty, every later write being refused. -/
theorem MainHandler_server_error_counterexample :
    (∃ W2, MainHandler sampleAssets writeThenFail (World.start ()) (newRequest "GET" "/")
        = Except.ok W2 ∧ W2.w.Code = 200 ∧ W2.w.Code ≠ 500)
    ∧ (∃ W2, MainHandler brokenAssets failAtOnce (World.start ()) (newRequest "GET" "/")
        = Except.ok W2 ∧ W2.w.Body = err500TemplateNotExecuting
          ∧ ¬ Contains W2.w.Body (GoError.other "boom").Error)
    ∧ (∃ W2, MainHandler sampleAssets noContentThenFail (World.start ()) (newRequest "GET" "/")
        = Except.ok W2 ∧ W2.w.Code = 204 ∧ W2.w.Body = ""
          ∧ ¬ Contains W2.w.Body (GoError.other "boom").Error) := by
  refine ⟨⟨_, rfl, by decide, by decide⟩, ⟨_, rfl, by decide, ?_⟩,
    ⟨_, rfl, by decide, by decide, by decide⟩⟩
  set_option maxRecDepth 100000 in decide

/-- C2, amended: when `h` returns an error `msg` that is not an `HTTPError`, `MainHandler h`
returns; the status is 500 provided `h` had not written the status line (nor, so, any body)
before it returned, and the status `h` wrote otherwise; at a status that permits a body (500
does) the body is what `h` wrote, then what `error500.html` wrote, then, only when its
execution failed, the fixed literal, and it contains the text of the error when the execution
succeeds with a page that contains it; at a status that permits no body (1xx, 204, 304, which
only `h` can have written) the body stays as `h` left it. -/
theorem MainHandler_server_error {σ : Type} (A : Assets) (h : Handler σ) (W W1 : World σ)
    (r : Request) (msg : String)
    (hh : h W r = Except.ok (some (GoError.other msg), W1)) :
    ∃ W2, MainHandler A h W r = Except.ok W2
      ∧ (W1.w.wroteHeader = false → W2.w.Code = 500)
      ∧ (W1.w.wroteHeader = true → W2.w.Code = W1.w.Code)
      ∧ (bodyAllowedForStatus W2.w.Code = true →
          W2.w.Body = W1.w.Body ++ String.join (A.error500Tmpl.run msg).writes
            ++ (match (A.error500Tmpl.run msg).err with
                | none => ""
                | some _ => err500TemplateNotExecuting)
          ∧ ((A.error500Tmpl.run msg).err = none →
              Contains (String.join (A.error500Tmpl.run msg).writes) msg →
              Contains W2.w.Body msg))
      ∧ (bodyAllowedForStatus W2.w.Code = false →
          W1.w.wroteHeader = true ∧ W2.w.Body = W1.w.Body) := by
  obtain ⟨W2, g1, _, _, g4, _, _, g7, g8⟩ := handleServerError_spec A (GoError.other msg) W1
  refine ⟨W2, by rw [MainHandler_eq, hh]; exact g1, ?_, ?_, ?_, ?_⟩
  · intro hw
    rw [g4, hw]
    rfl
  · intro hw
    rw [g4, hw]
    rfl
  · intro ha
    refine ⟨(g7 ha).1, ?_⟩
    intro _ hc
    rw [(g7 ha).1]
    exact contains_middle _ _ _ _ hc
  · intro ha
    refine ⟨?_, (g8 ha).1⟩
    cases hw : W1.w.wroteHeader with
    | true => rfl
    | false =>
      rw [g4, hw] at ha
      simp only [Bool.false_eq_true, if_false] at ha
      exact absurd ha (by decide)

set_option maxRecDepth 100000 in
/-- C2, amended, at a handler that fails at once with `boom`, with the sample page. -/
theorem MainHandler_server_error_witness :
    ∃ W2, MainHandler sampleAssets failAtOnce (World.start ()) (newRequest "GET" "/")
        = Except.ok W2
      ∧ W2.w.Code = 500
      ∧ Contains W2.w.Body "boom" := by
  obtain ⟨W2, g1, g2, _, g4, _⟩ := MainHandler_server_error sampleAssets failAtOnce
    (World.start ()) (World.start ()) (newRequest "GET" "/") "boom" rfl
  have hc : W2.w.Code = 500 := g2 rfl
  exact ⟨W2, g1, hc, (g4 (by rw [hc]; decide)).2 rfl (by decide)⟩

/-- C3 as stated fails four times, each at a valid status on a new response.  With the sample
page in working order, the message `1 < 2` is printed escaped, so the body does not contain
it; at the status 204 the page is refused its first write, the fallback is refused as well,
and the body is empty; without the file `templates/error.html` the status is 500, not 501;
and with a page that fails to execute the body holds the fallback page, not the message. -/
theorem WriteToPage_renders_counterexample :
    (∃ W1, HTTPError.WriteToPage ⟨501, "1 < 2"⟩ sampleAssets (World.start ()) = Except.ok W1
      ∧ W1.w.Code = 501 ∧ ¬ Contains W1.w.Body "1 < 2")
    ∧ (∃ W1, HTTPError.WriteToPage ⟨204, "No Content"⟩ sampleAssets (World.start ())
        = Except.ok W1
      ∧ W1.w.Code = 204 ∧ W1.w.Body = ""
      ∧ ¬ Contains W1.w.Body (fmtInt 204) ∧ ¬ Contains W1.w.Body "No Content")
    ∧ (∃ W1, HTTPError.WriteToPage ⟨501, "This is a test error"⟩ missingPageAssets
        (World.start ()) = Except.ok W1
      ∧ W1.w.Code = 500 ∧ W1.w.Code ≠ 501)
    ∧ (∃ W1, HTTPError.WriteToPage ⟨501, "This is a test error"⟩ brokenPageAssets
        (World.start ()) = Except.ok W1
      ∧ W1.w.Code = 501 ∧ ¬ Contains W1.w.Body "This is a test error") := by
  refine ⟨⟨_, rfl, by decide, ?_⟩, ⟨_, rfl, by decide, by decide, by decide, by decide⟩,
    ⟨_, rfl, by decide, by decide⟩, ⟨_, rfl, by decide, ?_⟩⟩
  · set_option maxRecDepth 100000 in decide
  · set_option maxRecDepth 100000 in decide

/-- C3, amended: for an `HTTPError` whose status is a valid code that permits a body (100 to
999, but not 1xx, 204 or 304), `WriteToPage` on a new response, with an error page that loads
and executes, returns with the status equal to `Status`, nothing logged, and the body equal
to the executed page, so that the body contains whatever the page prints.  With the sample
page, which prints status and message as `html/template` does, that is the decimal status
code and the message in escaped form, and the message itself when it has none of the seven
characters that are escaped. -/
theorem WriteToPage_renders {σ : Type} (e : HTTPError) (A : Assets) (W : World σ)
    (t : Template HTTPError)
    (hvalid : 100 ≤ e.Status ∧ e.Status ≤ 999)
    (hbody : bodyAllowedForStatus e.Status = true)
    (hload : A.errorHtml = Except.ok t) (hexec : (t.run e).err = none)
    (hfresh : W.w = NewRecorder) :
    ∃ W1, e.WriteToPage A W = Except.ok W1
      ∧ W1.w.Code = e.Status
      ∧ W1.w.Body = String.join (t.run e).writes
      ∧ W1.log = W.log
      ∧ (∀ sub, Contains (String.join (t.run e).writes) sub → Contains W1.w.Body sub)
      ∧ (t = errorHtmlPage →
          Contains W1.w.Body (fmtInt e.Status)
          ∧ Contains W1.w.Body (htmlEscape e.Message)
          ∧ ((∀ c ∈ e.Message.data, needsEscape c = false) → Contains W1.w.Body e.Message)) := by
  obtain ⟨W1, g1, g2, g3, _, _, g6, _⟩ :=
    WriteToPage_success e A W t hload hexec (by rw [hfresh]; rfl) hvalid hbody
  have hb : W1.w.Body = String.join (t.run e).writes := by
    rw [g3, hfresh]
    exact String.empty_append _
  refine ⟨W1, g1, g2, hb, g6, fun sub hs => hb ▸ hs, ?_⟩
  intro ht
  subst ht
  rw [hb]
  have hs : Contains (String.join (errorHtmlPage.run e).writes) (fmtInt e.Status) :=
    contains_join _ _ (by simp [errorHtmlPage])
  have hm : Contains (String.join (errorHtmlPage.run e).writes) (htmlEscape e.Message) :=
    contains_join _ _ (by simp [errorHtmlPage])
  refine ⟨hs, hm, ?_⟩
  intro hp
  rw [htmlEscape_plain e.Message hp] at hm
  exact hm

set_option maxRecDepth 100000 in
/-- C3, amended, at `{501, "This is a test error"}` with the sample page: the three
fragments `TestStatusError_WriteToPage` looks for are in the body. -/
theorem WriteToPage_renders_witness :
    ∃ W1, HTTPError.WriteToPage ⟨501, "This is a test error"⟩ sampleAssets (World.start ())
        = Except.ok W1
      ∧ W1.w.Code = 501
      ∧ W1.log = []
      ∧ Contains W1.w.Body (fmtInt 501)
      ∧ Contains W1.w.Body "This is a test error"
      ∧ Contains W1.w.Body "<h1>Error 501</h1>"
      ∧ Contains W1.w.Body "<title>Error 501 – This is a test error</title>"
      ∧ Contains W1.w.Body "This is a test error<br><br>" := by
  obtain ⟨W1, g1, g2, g3, g4, g5, g6⟩ := WriteToPage_renders ⟨501, "This is a test error"⟩
    sampleAssets (World.start ()) errorHtmlPage (by decide) (by decide) rfl rfl rfl
  refine ⟨W1, g1, g2, g4, (g6 rfl).1, (g6 rfl).2.2 (by decide), ?_, ?_, ?_⟩
  · exact g5 _ (by decide)
  · exact g5 _ (by decide)
  · exact g5 _ (by decide)

/-- C7: at the error `{501, "x"}` on a new response, with a page that loads and fails to
execute after the status line is out, `WriteToPage` returns with the status 501 and a body
that is not empty, but `handleServerError` sets `Content-Type` only after the status line:
the value is in the header map and not among the headers sent, which hold no `Content-Type`
at all. -/
theorem late_content_type_after_failed_page :
    ∃ W1, HTTPError.WriteToPage ⟨501, "x"⟩ brokenPageAssets (World.start ()) = Except.ok W1
      ∧ W1.w.Code = 501
      ∧ W1.w.Body ≠ ""
      ∧ W1.w.HeaderMap.Get "Content-Type" = htmlContent
      ∧ W1.w.snapHeader = []
      ∧ W1.w.snapHeader.Get "Content-Type" ≠ htmlContent := by
  exact ⟨_, rfl, by decide, by decide, by decide, by decide, by decide⟩

/-- C6: at `handleAddMonitor` under a `PUT` request, with the error page loading and
executing, the structured path of `MainHandler` ends with status 405 and no `Content-Type`,
neither in the header map nor among the headers sent: `WriteToPage` never sets it. -/
theorem structured_path_sets_no_content_type :
    ∃ W1, MainHandler sampleAssets (handleAddMonitor sampleAssets) (World.start ())
        (newRequest "PUT" "/monitors/add") = Except.ok W1
      ∧ W1.w.Code = 405
      ∧ W1.w.HeaderMap = [] ∧ W1.w.snapHeader = []
      ∧ W1.w.HeaderMap.Get "Content-Type" ≠ htmlContent
      ∧ W1.w.snapHeader.Get "Content-Type" ≠ htmlContent := by
  exact ⟨_, rfl, by decide, by decide, by decide, by decide, by decide⟩

set_option maxRecDepth 100000 in
/-- C8: at the router registered for `/foo/bar/` and a request for `/foo/bar/home`, the body
is the plain text `404 page not found`, sent as `text/plain`; it holds neither the title the
test looks for nor the words `Page could not be found`. -/
theorem not_found_body_is_plain_text :
    ∃ W1, IndexHandler "/foo/bar/" testHandler (World.start false)
        (newRequest "GET" "/foo/bar/home") = Except.ok W1
      ∧ W1.w.Code = 404
      ∧ W1.w.Body = "404 page not found\n"
      ∧ W1.w.snapHeader.Get "Content-Type" = "text/plain; charset=utf-8"
      ∧ ¬ Contains W1.w.Body "<title>Error 404 – Page could not be found</title>"
      ∧ ¬ Contains W1.w.Body "Page could not be found"
      ∧ ¬ Contains W1.w.Body "page could not be found" := by
  exact ⟨_, rfl, by decide, by decide, by decide, by decide, by decide, by decide⟩

end Upchecker
